import Mathlib

/-!
Verification development for the smart-doc-query repository.

The client (src/frontend/src/app/page.js) is embedded directly: each React
handler becomes a pure function from the relevant component state plus the
network response it awaits to the successor state together with the list of
HTTP requests it issues.  The backend implied by the client API surface is
modelled from the specification where noted.
-/

namespace SmartDocQuery

/-- A chat message as built in page.js: `{role, content}` for user messages,
`{role, content, sources}` for assistant messages. -/
structure Message where
  role : String
  content : String
  sources : Option (List String)
  deriving DecidableEq

/-- The `chatStatus` state object of DocumentChatApp. -/
structure ChatStatus where
  vectorstore_available : Bool
  document_count : Int
  deriving DecidableEq

/-- The slice of DocumentChatApp component state the API handlers read and
write. -/
structure ClientState where
  messages : List Message
  inputMessage : String
  loading : Bool
  uploadedFiles : List String
  chatStatus : ChatStatus
  currentPage : Nat
  currentSessionId : Option String
  notification : String
  deriving DecidableEq

/-- HTTP requests the client can issue, by method and path. -/
inductive Request where
  | postNewSession
  | getChatSessions
  | postQuery (message : String) (session_id : Option String)
  | postUpload (filename : String)
  | getDocumentsList
  | getChatStatus
  | postRefreshVectorstore
  | deleteDocument (filename : String)
  | postReprocess
  deriving DecidableEq

/-- JavaScript truthiness of the `currentSessionId` state value: `null` and
the empty string are falsy, any other string is truthy. -/
def jsTruthyStr : Option String → Bool
  | none => false
  | some s => s ≠ ""

/-- Outcome of the POST /chat/new-session fetch awaited by createNewChat. -/
inductive NewSessionResponse where
  | ok (session_id : String)
  | httpError
  | networkError
  deriving DecidableEq

/-- Embedding of createNewChat (page.js lines 182-210): if `currentSessionId`
is truthy and `messages` is empty it only shows a notification; otherwise it
POSTs /chat/new-session and, on a 2xx response, clears the messages and adopts
the returned session id, then refreshes the session list. -/
def createNewChat (s : ClientState) (resp : NewSessionResponse) :
    ClientState × List Request :=
  if jsTruthyStr s.currentSessionId ∧ s.messages = [] then
    ({ s with notification := "You already have an empty chat open" }, [])
  else
    match resp with
    | .ok sid =>
        ({ s with messages := [], currentSessionId := some sid,
                  notification := "New chat created" },
         [.postNewSession, .getChatSessions])
    | .httpError => (s, [.postNewSession])
    | .networkError =>
        ({ s with notification := "Error creating new chat" }, [.postNewSession])

/-- The whitespace characters JavaScript `String.prototype.trim` strips
(the ASCII ones: space, tab, line feed, carriage return, vertical tab, form
feed). -/
def jsWhitespace (c : Char) : Bool :=
  c = ' ' || c = '\t' || c = '\n' || c = '\r' ||
  c = Char.ofNat 11 || c = Char.ofNat 12

/-- JavaScript `s.trim()`: strips leading and trailing whitespace. -/
def jsTrim (s : String) : String :=
  String.mk
    (((s.toList.dropWhile jsWhitespace).reverse.dropWhile jsWhitespace).reverse)

/-- Outcome of the POST /chat/query fetch awaited by sendMessage. -/
inductive QueryResponse where
  | ok (response : String) (source_documents : List String) (session_id : String)
  | httpError (detail : Option String)
  | networkError (msg : String)
  deriving DecidableEq

/-- Embedding of sendMessage (page.js lines 267-306): returns unchanged state
and no request when the trimmed input is empty or a request is in flight;
otherwise appends the user message, clears the input, POSTs /chat/query and,
on success, appends the assistant message and adopts the returned session id. -/
def sendMessage (s : ClientState) (resp : QueryResponse) :
    ClientState × List Request :=
  if jsTrim s.inputMessage = "" ∨ s.loading then (s, [])
  else
    let userMessage : Message := ⟨"user", s.inputMessage, none⟩
    let s1 := { s with messages := s.messages ++ [userMessage],
                       inputMessage := "" }
    let req := Request.postQuery s.inputMessage s.currentSessionId
    match resp with
    | .ok r srcs sid =>
        ({ s1 with messages := s1.messages ++ [⟨"assistant", r, some srcs⟩],
                   currentSessionId := some sid, loading := false },
         [req, .getChatSessions])
    | .httpError d =>
        ({ s1 with notification := d.getD "Failed to get response",
                   loading := false }, [req])
    | .networkError m =>
        ({ s1 with notification := "Chat error: " ++ m,
                   loading := false }, [req])

/-- The JSON body of GET /chat/status as the client sees it: either field may
be absent. -/
structure StatusData where
  vectorstore_available : Option Bool
  document_count : Option Int
  deriving DecidableEq

/-- Outcome of the GET /chat/status fetch awaited by checkChatStatus; a
non-2xx response is thrown and lands in the catch branch. -/
inductive StatusResponse where
  | ok (data : StatusData)
  | httpError
  | networkError
  deriving DecidableEq

/-- JavaScript `x || d` for an optional boolean field: undefined and `false`
are falsy. -/
def jsOrBool : Option Bool → Bool → Bool
  | none, d => d
  | some b, d => if b then b else d

/-- JavaScript `x || d` for an optional integer field: undefined and `0` are
falsy. -/
def jsOrInt : Option Int → Int → Int
  | none, d => d
  | some n, d => if n ≠ 0 then n else d

/-- Embedding of checkChatStatus (page.js lines 101-159): a 2xx response is
validated field by field with `|| false` and `|| 0`; any thrown error resets
the status to the default `{vectorstore_available: false, document_count: 0}`. -/
def checkChatStatus (s : ClientState) (resp : StatusResponse) : ClientState :=
  match resp with
  | .ok d =>
      { s with chatStatus :=
          ⟨jsOrBool d.vectorstore_available false, jsOrInt d.document_count 0⟩ }
  | .httpError =>
      { s with chatStatus := ⟨false, 0⟩,
               notification := "Unable to check system status" }
  | .networkError =>
      { s with chatStatus := ⟨false, 0⟩,
               notification := "Unable to check system status" }

/-- Outcome of the POST /documents/upload fetch awaited by uploadFile. -/
inductive UploadResponse where
  | ok
  | httpError (detail : Option String)
  | networkError (msg : String)
  deriving DecidableEq

/-- Outcome of the POST /chat/refresh-vectorstore fetch inside uploadFile;
its failure is caught and only logged. -/
inductive RefreshOutcome where
  | ok
  | failed
  deriving DecidableEq

/-- The success notification uploadFile shows. -/
def uploadSuccessNote (file : String) : String :=
  "File " ++ file ++ " uploaded successfully!"

/-- Embedding of uploadFile (page.js lines 231-265): POSTs the upload; on 2xx
it reports success, reloads the file list and status, and POSTs the
incremental refresh whose own failure is swallowed by an inner catch. -/
def uploadFile (s : ClientState) (file : String) (resp : UploadResponse)
    (_refresh : RefreshOutcome) : ClientState × List Request :=
  match resp with
  | .ok =>
      ({ s with notification := uploadSuccessNote file, loading := false },
       [.postUpload file, .getDocumentsList, .getChatStatus,
        .postRefreshVectorstore])
  | .httpError d =>
      ({ s with notification := d.getD "Upload failed", loading := false },
       [.postUpload file])
  | .networkError m =>
      ({ s with notification := "Upload error: " ++ m, loading := false },
       [.postUpload file])

/-- page.js line 51. -/
def filesPerPage : Nat := 2

/-- page.js line 52: `Math.ceil(uploadedFiles.length / filesPerPage)`. -/
def totalPages (files : List String) : Nat :=
  (files.length + filesPerPage - 1) / filesPerPage

/-- page.js lines 53-56: the slice of the file list shown on the current
page. -/
def currentFiles (files : List String) (page : Nat) : List String :=
  (files.drop (page * filesPerPage)).take filesPerPage

/-- page.js lines 84-88: the effect that clamps currentPage when the file
list shrinks. -/
def resetPage (files : List String) (page : Nat) : Nat :=
  if totalPages files ≤ page ∧ 0 < totalPages files then totalPages files - 1
  else page

/-- page.js line 848: the chat textarea is disabled without an available
vectorstore or while loading. -/
def inputDisabled (s : ClientState) : Bool :=
  !s.chatStatus.vectorstore_available || s.loading

/-- page.js lines 860-864: the send button is disabled on blank input,
without an available vectorstore, or while loading. -/
def sendButtonDisabled (s : ClientState) : Bool :=
  jsTrim s.inputMessage = "" || !s.chatStatus.vectorstore_available || s.loading

/-- Modelled from the spec: Document status, §3 — `status ∈ {pending,
indexed, failed}` (the backend main.py is not in the repository snapshot). -/
inductive DocStatus where
  | pending
  | indexed
  | failed
  deriving DecidableEq

/-- Modelled from the spec: a Document of the Document Store, §3 — id is
derived from the filename, so the filename acts as the document id. -/
structure Doc where
  filename : String
  text : String
  status : DocStatus
  deriving DecidableEq

/-- Modelled from the spec: a Chunk id, §3 — owning document reference plus
sequence index. -/
structure ChunkId where
  document_id : String
  sequence_index : Nat
  deriving DecidableEq

/-- Modelled from the spec: an Embedding Index entry, §3 — a vector keyed by
chunk id, insertion-ordered. -/
structure IndexEntry where
  cid : ChunkId
  vector : List Int
  deriving DecidableEq

/-- Modelled from the spec: the backend state the document endpoints act on —
the Document Store plus the Embedding Index, §2. -/
structure Backend where
  docs : List Doc
  index : List IndexEntry
  deriving DecidableEq

/-- Modelled from the spec: the Chunker window loop, §4.2 — fixed-size
windows advancing by a positive step so overlap is preserved. -/
def windows (size step : Nat) (cs : List Char) : List (List Char) :=
  if h : cs = [] then []
  else cs.take size :: windows size step (cs.drop (max 1 step))
termination_by cs.length
decreasing_by
  have hpos : 0 < cs.length := List.length_pos.mpr h
  simp only [List.length_drop]
  omega

/-- Modelled from the spec: `split(document_text)`, §4.2 — fixed-size windows
of `size` characters with `overlap` characters of overlap; deterministic;
an empty document yields zero chunks. -/
def split (size overlap : Nat) (text : String) : List String :=
  (windows size (size - overlap) text.toList).map fun cs => String.mk cs

/-- Modelled from the spec: the chunks of one document, §3 — produced by the
Chunker, keyed by the owning document id and the sequence index. -/
def chunksOf (size overlap : Nat) (d : Doc) : List (ChunkId × String) :=
  (split size overlap d.text).enum.map fun p =>
    (⟨d.filename, p.1⟩, p.2)

/-- Modelled from the spec: embedding one document's chunks, §4.3/§4.4 — the
external embedding service may fail per chunk (`embed` returns `none`); failed
chunks are skipped, not fatal to the batch. -/
def buildEntries (size overlap : Nat) (embed : String → Option (List Int))
    (d : Doc) : List IndexEntry :=
  (chunksOf size overlap d).filterMap fun c =>
    (embed c.2).map fun v => ⟨c.1, v⟩

/-- Modelled from the spec: the document status after a pipeline run, §4.4 —
`Indexed` when every chunk embedded, `Failed` on any per-document embedding
failure. -/
def pipelineStatus (size overlap : Nat) (embed : String → Option (List Int))
    (d : Doc) : DocStatus :=
  if (chunksOf size overlap d).all fun c => (embed c.2).isSome then .indexed
  else .failed

/-- Modelled from the spec: `reprocess()`, §4.4 — a full pipeline re-run over
every stored Document that atomically clears and fully rebuilds the Embedding
Index; per-document failures mark that document Failed without aborting the
rest. -/
def reprocess (size overlap : Nat) (embed : String → Option (List Int))
    (b : Backend) : Backend :=
  { docs := b.docs.map fun d =>
      { d with status := pipelineStatus size overlap embed d },
    index := (b.docs.map (buildEntries size overlap embed)).flatten }

/-- Modelled from the spec: the incremental refresh behind
POST /chat/refresh-vectorstore, §4.4 — only the not-yet-indexed documents'
chunks are added; the existing index entries are left in place (no full
rebuild). -/
def refreshVectorstore (size overlap : Nat)
    (embed : String → Option (List Int)) (b : Backend) : Backend :=
  { docs := b.docs.map fun d =>
      if d.status = .pending then
        { d with status := pipelineStatus size overlap embed d }
      else d,
    index := b.index ++
      ((b.docs.filter fun d => d.status = .pending).map
        (buildEntries size overlap embed)).flatten }

/-- Modelled from the spec: `delete(filename)` of the Document Store, §4.1 —
destroys the document and synchronously removes its dependent chunks and
embeddings from the index before returning. -/
def deleteDoc (b : Backend) (filename : String) : Backend :=
  { docs := b.docs.filter fun d => d.filename ≠ filename,
    index := b.index.filter fun e => e.cid.document_id ≠ filename }

/-- Modelled from the spec: the similarity score of `search`, §4.3 — inner
product, consistent with how the vectors were produced. -/
def dot : List Int → List Int → Int
  | a :: as, b :: bs => a * b + dot as bs
  | _, _ => 0

/-- Modelled from the spec: `search(query_vector, k)`, §4.3 — entries ranked
by descending similarity, ties broken by insertion order (stable sort), top
`k` returned. -/
def search (b : Backend) (qv : List Int) (k : Nat) : List (ChunkId × Int) :=
  (((b.index.map fun e => (e.cid, dot qv e.vector)).mergeSort
      fun x y => y.2 ≤ x.2).take k)

/-- Modelled from the spec: referential integrity of the index, §3 — the
Embedding Index never holds a vector for a chunk whose document is absent
from the Document Store. -/
def integrity (b : Backend) : Prop :=
  ∀ e ∈ b.index, ∃ d ∈ b.docs, d.filename = e.cid.document_id

/-- Modelled from the spec: the stronger pipeline invariant, §3/§4.4 — every
index entry belongs to a stored document that is in status `indexed`. -/
def indexedIntegrity (b : Backend) : Prop :=
  ∀ e ∈ b.index, ∃ d ∈ b.docs,
    d.filename = e.cid.document_id ∧ d.status = .indexed

/-- Modelled from the spec: the query-path error taxonomy the claims use,
§7. -/
inductive QueryError where
  | NoDocumentsIndexed
  deriving DecidableEq

/-- Modelled from the spec: the Query Orchestrator `answer`, §4.6 — if the
index is empty it fails with `NoDocumentsIndexed` before any generation call;
otherwise it retrieves top-k chunks and calls the generation service exactly
once.  The second component counts generation-service calls. -/
def answer (embed : String → List Int) (generate : String → String) (k : Nat)
    (b : Backend) (q : String) :
    Except QueryError (String × List ChunkId) × Nat :=
  if b.index = [] then (.error .NoDocumentsIndexed, 0)
  else
    let results := search b (embed q) k
    (.ok (generate q, results.map fun r => r.1), 1)

/-- Modelled from the spec: VectorStoreStatus, §3 — derived, not stored:
`available` = (Embedding Index non-empty), `document_count` = count of
indexed Documents. -/
def statusOf (b : Backend) : ChatStatus :=
  { vectorstore_available := !b.index.isEmpty,
    document_count := ((b.docs.filter fun d => d.status = .indexed).length : Int) }

/-- Modelled from the spec: a Session of the Session Store, §3/§4.5. -/
structure Session where
  id : Nat
  title : String
  created_at : Nat
  last_updated : Nat
  msgs : List Message
  deriving DecidableEq

/-- Modelled from the spec: the Session Store, §4.5, with a fresh-id
counter. -/
structure SessionStore where
  sessions : List Session
  nextId : Nat
  deriving DecidableEq

/-- Modelled from the spec: the session capacity cap, §3/§4.5 — at most 50
retained sessions. -/
def sessionCap : Nat := 50

/-- Modelled from the spec: the least-recently-updated session, §4.5 — the
eviction victim; the earliest-listed session among those with minimal
`last_updated`. -/
def lru : List Session → Option Session
  | [] => none
  | s :: rest =>
      some (rest.foldl
        (fun acc x => if x.last_updated < acc.last_updated then x else acc) s)

/-- Modelled from the spec: `create(title)`, §4.5 — id assigned,
`created_at` = `last_updated` = now; when the session count would exceed the
cap, the least-recently-updated session is evicted before creating. -/
def createSession (st : SessionStore) (title : String) (now : Nat) :
    SessionStore × Nat :=
  let kept :=
    if sessionCap < st.sessions.length + 1 then
      match lru st.sessions with
      | some v => st.sessions.erase v
      | none => st.sessions
    else st.sessions
  ({ sessions := kept ++ [⟨st.nextId, title, now, now, []⟩],
     nextId := st.nextId + 1 }, st.nextId)

/-- Modelled from the spec: `append_message(id, message)`, §4.5 — appends to
the session's ordered message sequence and updates `last_updated`; fails
`NotFound` for an unknown id. -/
def appendMessage (st : SessionStore) (id : Nat) (m : Message) (now : Nat) :
    Option SessionStore :=
  if st.sessions.any fun s => s.id = id then
    some { st with sessions := st.sessions.map fun s =>
      if s.id = id then { s with msgs := s.msgs ++ [m], last_updated := now }
      else s }
  else none

/-- Modelled from the spec: `delete(id)`, §4.5. -/
def deleteSession (st : SessionStore) (id : Nat) : SessionStore :=
  { st with sessions := st.sessions.filter fun s => s.id ≠ id }

/-- Modelled from the spec: the states the Session Store can reach from empty
through its operations, §4.5. -/
inductive ReachableStore : SessionStore → Prop where
  | init : ReachableStore ⟨[], 0⟩
  | create (st : SessionStore) (title : String) (now : Nat) :
      ReachableStore st → ReachableStore (createSession st title now).1
  | append (st st' : SessionStore) (id : Nat) (m : Message) (now : Nat) :
      ReachableStore st → appendMessage st id m now = some st' →
      ReachableStore st'
  | delete (st : SessionStore) (id : Nat) :
      ReachableStore st → ReachableStore (deleteSession st id)

/-- Entries built for a document always carry that document's id. -/
theorem mem_buildEntries_document_id (size overlap : Nat)
    (embed : String → Option (List Int)) (d : Doc) (e : IndexEntry)
    (he : e ∈ buildEntries size overlap embed d) :
    e.cid.document_id = d.filename := by
  simp only [buildEntries, List.mem_filterMap] at he
  obtain ⟨c, hc, hval⟩ := he
  obtain ⟨v, _, hev⟩ := Option.map_eq_some.mp hval
  simp only [chunksOf, List.mem_map] at hc
  obtain ⟨p, _, hp⟩ := hc
  subst hev
  rw [← hp]

/-- Every search result's chunk id comes from some index entry. -/
theorem mem_search (b : Backend) (qv : List Int) (k : Nat)
    (r : ChunkId × Int) (hr : r ∈ search b qv k) :
    ∃ e ∈ b.index, r.1 = e.cid := by
  have h1 : r ∈ (b.index.map fun e => (e.cid, dot qv e.vector)).mergeSort
      fun x y => y.2 ≤ x.2 := List.mem_of_mem_take hr
  rw [List.mem_mergeSort, List.mem_map] at h1
  obtain ⟨e, he, hre⟩ := h1
  exact ⟨e, he, by rw [← hre]⟩

/-- C1: when a current session id is set (truthy) and the message list is
empty, createNewChat issues no request, leaves the messages and session id
unchanged, and only shows a notification; in every other state it POSTs
/chat/new-session and, on a 2xx response, clears the messages and adopts the
returned session id. -/
theorem createNewChat_empty_session_guard (s : ClientState)
    (resp : NewSessionResponse) :
    (jsTruthyStr s.currentSessionId = true → s.messages = [] →
      (createNewChat s resp).2 = [] ∧
      (createNewChat s resp).1.messages = s.messages ∧
      (createNewChat s resp).1.currentSessionId = s.currentSessionId ∧
      (createNewChat s resp).1.notification =
        "You already have an empty chat open") ∧
    (¬(jsTruthyStr s.currentSessionId = true ∧ s.messages = []) →
      Request.postNewSession ∈ (createNewChat s resp).2 ∧
      ∀ sid, resp = .ok sid →
        (createNewChat s resp).1.messages = [] ∧
        (createNewChat s resp).1.currentSessionId = some sid) := by
  constructor
  · intro ht hm
    simp [createNewChat, ht, hm]
  · intro hno
    rw [show (jsTruthyStr s.currentSessionId ∧ s.messages = []) =
        (jsTruthyStr s.currentSessionId = true ∧ s.messages = []) by simp]
      at hno
    cases resp with
    | ok sid => simp [createNewChat, hno]
    | httpError => simp [createNewChat, hno]
    | networkError => simp [createNewChat, hno]

/-- Concrete instantiation of the C1 theorem: with an open empty session the
guard fires, and with no session the POST is issued. -/
theorem createNewChat_empty_session_guard_witness :
    ((createNewChat ⟨[], "", false, [], ⟨false, 0⟩, 0, some "a", ""⟩
        .httpError).2 = [] ∧
      (createNewChat ⟨[], "", false, [], ⟨false, 0⟩, 0, some "a", ""⟩
        .httpError).1.messages = [] ∧
      (createNewChat ⟨[], "", false, [], ⟨false, 0⟩, 0, some "a", ""⟩
        .httpError).1.currentSessionId = some "a" ∧
      (createNewChat ⟨[], "", false, [], ⟨false, 0⟩, 0, some "a", ""⟩
        .httpError).1.notification = "You already have an empty chat open") ∧
    (Request.postNewSession ∈
      (createNewChat ⟨[], "", false, [], ⟨false, 0⟩, 0, none, ""⟩
        (.ok "s1")).2 ∧
     (createNewChat ⟨[], "", false, [], ⟨false, 0⟩, 0, none, ""⟩
        (.ok "s1")).1.currentSessionId = some "s1") := by
  constructor
  · exact (createNewChat_empty_session_guard
      ⟨[], "", false, [], ⟨false, 0⟩, 0, some "a", ""⟩ .httpError).1
      (by decide) rfl
  · obtain ⟨h1, h2⟩ := (createNewChat_empty_session_guard
      ⟨[], "", false, [], ⟨false, 0⟩, 0, none, ""⟩ (.ok "s1")).2
      (by simp [jsTruthyStr])
    exact ⟨h1, (h2 "s1" rfl).2⟩

/-- C10: sendMessage is a no-op — no request, state unchanged — whenever the
trimmed input is empty or a request is already in flight. -/
theorem sendMessage_blank_or_loading_noop (s : ClientState)
    (resp : QueryResponse)
    (h : jsTrim s.inputMessage = "" ∨ s.loading = true) :
    sendMessage s resp = (s, []) := by
  rcases h with h | h <;> simp [sendMessage, h]

/-- Concrete instantiation of the C10 theorem: whitespace-only input is a
no-op, and so is a call while loading. -/
theorem sendMessage_blank_or_loading_noop_witness :
    sendMessage ⟨[], "   ", false, [], ⟨true, 1⟩, 0, none, ""⟩
        (.ok "r" [] "s1") =
      (⟨[], "   ", false, [], ⟨true, 1⟩, 0, none, ""⟩, []) ∧
    sendMessage ⟨[], "hi", true, [], ⟨true, 1⟩, 0, none, ""⟩
        (.ok "r" [] "s1") =
      (⟨[], "hi", true, [], ⟨true, 1⟩, 0, none, ""⟩, []) := by
  constructor
  · exact sendMessage_blank_or_loading_noop _ _ (Or.inl (by decide))
  · exact sendMessage_blank_or_loading_noop _ _ (Or.inr rfl)

/-- C3: on a successful /chat/query response, exactly one user message with
the submitted text followed by exactly one assistant message with the
returned response and sources are appended, and the returned session id is
adopted. -/
theorem sendMessage_success_appends (s : ClientState) (r : String)
    (srcs : List String) (sid : String)
    (hb : ¬ jsTrim s.inputMessage = "") (hl : s.loading = false) :
    (sendMessage s (.ok r srcs sid)).1.messages =
      s.messages ++ [⟨"user", s.inputMessage, none⟩,
                     ⟨"assistant", r, some srcs⟩] ∧
    (sendMessage s (.ok r srcs sid)).1.currentSessionId = some sid ∧
    (sendMessage s (.ok r srcs sid)).2 =
      [.postQuery s.inputMessage s.currentSessionId, .getChatSessions] := by
  simp [sendMessage, hb, hl]

/-- Concrete instantiation of the C3 theorem. -/
theorem sendMessage_success_appends_witness :
    (sendMessage ⟨[], "hello", false, [], ⟨true, 1⟩, 0, some "s0", ""⟩
        (.ok "world" ["doc.txt"] "s1")).1.messages =
      [⟨"user", "hello", none⟩, ⟨"assistant", "world", some ["doc.txt"]⟩] ∧
    (sendMessage ⟨[], "hello", false, [], ⟨true, 1⟩, 0, some "s0", ""⟩
        (.ok "world" ["doc.txt"] "s1")).1.currentSessionId = some "s1" := by
  obtain ⟨h1, h2, _⟩ := sendMessage_success_appends
    ⟨[], "hello", false, [], ⟨true, 1⟩, 0, some "s0", ""⟩
    "world" ["doc.txt"] "s1" (by decide) rfl
  exact ⟨by rw [h1]; rfl, h2⟩

/-- C9: the displayed page holds at most filesPerPage = 2 entries, and when
there is at least one page the clamping effect keeps the page index strictly
below totalPages, so the displayed slice is non-empty. -/
theorem pagination_in_range (files : List String) (page : Nat) :
    (currentFiles files page).length ≤ filesPerPage ∧
    (0 < totalPages files →
      resetPage files page < totalPages files ∧
      currentFiles files (resetPage files page) ≠ []) := by
  refine ⟨by simp [currentFiles, List.length_take], fun htp => ?_⟩
  have hlt : resetPage files page < totalPages files := by
    unfold resetPage
    split
    · omega
    · next hcond =>
      rcases not_and_or.mp hcond with h | h
      · omega
      · omega
  refine ⟨hlt, ?_⟩
  have hidx : resetPage files page * filesPerPage < files.length := by
    unfold totalPages at hlt
    unfold filesPerPage at hlt ⊢
    omega
  intro hnil
  unfold currentFiles at hnil
  rw [List.take_eq_nil_iff] at hnil
  rcases hnil with h | h
  · simp [filesPerPage] at h
  · rw [List.drop_eq_nil_iff] at h
    omega

/-- Concrete instantiation of the C9 theorem: three files, a stale page
index 5, clamped to the last page which shows one file. -/
theorem pagination_in_range_witness :
    (currentFiles ["a", "b", "c"] 5).length ≤ filesPerPage ∧
    resetPage ["a", "b", "c"] 5 < totalPages ["a", "b", "c"] ∧
    currentFiles ["a", "b", "c"] (resetPage ["a", "b", "c"] 5) ≠ [] := by
  obtain ⟨h1, h2⟩ := pagination_in_range ["a", "b", "c"] 5
  exact ⟨h1, h2 (by decide)⟩

/-- C7: reprocess is idempotent — with no document changes in between,
running it twice yields a structurally identical Embedding Index (and
document store) as running it once, because chunking and embedding depend
only on the documents' filenames and texts, which reprocess preserves. -/
theorem reprocess_idempotent (size overlap : Nat)
    (embed : String → Option (List Int)) (b : Backend) :
    reprocess size overlap embed (reprocess size overlap embed b) =
      reprocess size overlap embed b := by
  unfold reprocess
  simp only [List.map_map]
  have h1 : ((fun d : Doc =>
        { d with status := pipelineStatus size overlap embed d }) ∘
      fun d : Doc => { d with status := pipelineStatus size overlap embed d }) =
      fun d : Doc => { d with status := pipelineStatus size overlap embed d } :=
    funext fun d => rfl
  have h2 : (buildEntries size overlap embed ∘
      fun d : Doc => { d with status := pipelineStatus size overlap embed d }) =
      buildEntries size overlap embed :=
    funext fun d => rfl
  rw [h1, h2]

/-- C8: deleting a document removes all of its chunks and embeddings from
the index before the delete returns, preserves referential integrity, and no
subsequent search returns a chunk whose document no longer exists in the
Document Store. -/
theorem delete_referential_integrity (b : Backend) (f : String)
    (hi : integrity b) :
    (∀ e ∈ (deleteDoc b f).index, e.cid.document_id ≠ f) ∧
    integrity (deleteDoc b f) ∧
    (∀ qv k r, r ∈ search (deleteDoc b f) qv k →
      ∃ d ∈ (deleteDoc b f).docs, d.filename = r.1.document_id) := by
  have hmem : ∀ e ∈ (deleteDoc b f).index,
      e ∈ b.index ∧ e.cid.document_id ≠ f := by
    intro e he
    simp only [deleteDoc, List.mem_filter, decide_eq_true_eq] at he
    exact he
  have hint : integrity (deleteDoc b f) := by
    intro e he
    obtain ⟨heb, hne⟩ := hmem e he
    obtain ⟨d, hd, hdf⟩ := hi e heb
    refine ⟨d, ?_, hdf⟩
    simp only [deleteDoc, List.mem_filter, decide_eq_true_eq]
    exact ⟨hd, by rw [hdf]; exact hne⟩
  refine ⟨fun e he => (hmem e he).2, hint, ?_⟩
  intro qv k r hr
  obtain ⟨e, he, hre⟩ := mem_search _ qv k r hr
  obtain ⟨d, hd, hdf⟩ := hint e he
  exact ⟨d, hd, by rw [hdf, hre]⟩

/-- Concrete instantiation of the C8 theorem: deleting a.txt from a
two-document store leaves an index whose surviving entry still resolves, and
that entry no longer references a.txt. -/
theorem delete_referential_integrity_witness :
    integrity (deleteDoc
      ⟨[⟨"a.txt", "x", .indexed⟩, ⟨"b.txt", "y", .indexed⟩],
       [⟨⟨"a.txt", 0⟩, [1]⟩, ⟨⟨"b.txt", 0⟩, [2]⟩]⟩ "a.txt") ∧
    (⟨⟨"b.txt", 0⟩, [2]⟩ : IndexEntry).cid.document_id ≠ "a.txt" := by
  have h := delete_referential_integrity
    ⟨[⟨"a.txt", "x", .indexed⟩, ⟨"b.txt", "y", .indexed⟩],
     [⟨⟨"a.txt", 0⟩, [1]⟩, ⟨⟨"b.txt", 0⟩, [2]⟩]⟩ "a.txt"
    (by intro e he; fin_cases he <;> simp [integrity])
  exact ⟨h.2.1, h.1 ⟨⟨"b.txt", 0⟩, [2]⟩ (by simp [deleteDoc])⟩

/-- C2: with zero documents indexed (and the pipeline invariant that index
entries only come from indexed documents) a query fails with
NoDocumentsIndexed and the generation service is not called; on the client
the textarea and send button are disabled whenever vectorstore_available is
false, even though sendMessage itself only guards on blank input and an
in-flight request. -/
theorem query_zero_documents_guard (s : ClientState) (b : Backend)
    (embed : String → List Int) (generate : String → String) (k : Nat)
    (q : String)
    (hs : s.chatStatus.vectorstore_available = false)
    (hb : ∀ d ∈ b.docs, d.status ≠ DocStatus.indexed)
    (hi : indexedIntegrity b) :
    inputDisabled s = true ∧ sendButtonDisabled s = true ∧
    (answer embed generate k b q).1 = .error .NoDocumentsIndexed ∧
    (answer embed generate k b q).2 = 0 ∧
    (∀ resp, ¬ jsTrim s.inputMessage = "" → s.loading = false →
      (sendMessage s resp).2.head? =
        some (.postQuery s.inputMessage s.currentSessionId)) := by
  have hempty : b.index = [] := by
    cases hidx : b.index with
    | nil => rfl
    | cons e rest =>
      obtain ⟨d, hd, _, hst⟩ :=
        hi e (by rw [hidx]; exact List.mem_cons_self e rest)
      exact absurd hst (hb d hd)
  refine ⟨?_, ?_, ?_, ?_, ?_⟩
  · simp [inputDisabled, hs]
  · simp [sendButtonDisabled, hs]
  · simp [answer, hempty]
  · simp [answer, hempty]
  · intro resp hbk hl
    cases resp <;> simp [sendMessage, hbk, hl]

/-- Concrete instantiation of the C2 theorem: one pending document, empty
index, unavailable vectorstore. -/
theorem query_zero_documents_guard_witness :
    inputDisabled ⟨[], "hi", false, [], ⟨false, 0⟩, 0, none, ""⟩ = true ∧
    sendButtonDisabled ⟨[], "hi", false, [], ⟨false, 0⟩, 0, none, ""⟩ = true ∧
    (answer (fun _ => []) (fun _ => "") 3
      ⟨[⟨"f.txt", "text", .pending⟩], []⟩ "q").1 =
        .error .NoDocumentsIndexed ∧
    (answer (fun _ => []) (fun _ => "") 3
      ⟨[⟨"f.txt", "text", .pending⟩], []⟩ "q").2 = 0 := by
  obtain ⟨h1, h2, h3, h4, _⟩ := query_zero_documents_guard
    ⟨[], "hi", false, [], ⟨false, 0⟩, 0, none, ""⟩
    ⟨[⟨"f.txt", "text", .pending⟩], []⟩
    (fun _ => []) (fun _ => "") 3 "q" rfl
    (by intro d hd; fin_cases hd; decide)
    (by intro e he; simp at he)
  exact ⟨h1, h2, h3, h4⟩

/-- C4: a successful upload issues the incremental refresh POST and reloads
the file list and status; a failure of the refresh does not change the
outcome at all (the upload is still reported successful); no full-reindex
request is issued; and on the backend the refresh only appends the
not-yet-indexed documents' entries after the untouched existing index. -/
theorem upload_refresh_incremental_and_tolerant (s : ClientState)
    (file : String) (size overlap : Nat)
    (embed : String → Option (List Int)) (b : Backend) :
    (∀ rf, uploadFile s file .ok rf = uploadFile s file .ok .ok) ∧
    Request.postRefreshVectorstore ∈ (uploadFile s file .ok .failed).2 ∧
    Request.getDocumentsList ∈ (uploadFile s file .ok .failed).2 ∧
    Request.getChatStatus ∈ (uploadFile s file .ok .failed).2 ∧
    (uploadFile s file .ok .failed).1.notification = uploadSuccessNote file ∧
    Request.postReprocess ∉ (uploadFile s file .ok .failed).2 ∧
    (refreshVectorstore size overlap embed b).index.take b.index.length =
      b.index ∧
    (∀ e ∈ (refreshVectorstore size overlap embed b).index.drop
        b.index.length,
      ∃ d ∈ b.docs, d.status = .pending ∧
        d.filename = e.cid.document_id) := by
  refine ⟨fun rf => rfl, by simp [uploadFile], by simp [uploadFile],
    by simp [uploadFile], rfl, by simp [uploadFile], ?_, ?_⟩
  · show (b.index ++ _).take b.index.length = b.index
    exact List.take_left b.index _
  · intro e he
    rw [show (refreshVectorstore size overlap embed b).index =
        b.index ++ ((b.docs.filter fun d =>
          d.status = .pending).map (buildEntries size overlap embed)).flatten
      from rfl, List.drop_left] at he
    rw [List.mem_flatten] at he
    obtain ⟨l, hl, hel⟩ := he
    rw [List.mem_map] at hl
    obtain ⟨d, hd, hld⟩ := hl
    rw [List.mem_filter, decide_eq_true_eq] at hd
    refine ⟨d, hd.1, hd.2, ?_⟩
    exact (mem_buildEntries_document_id size overlap embed d e
      (hld ▸ hel)).symm

/-- Concrete instantiation of the C4 theorem: refresh failure and refresh
success give the same result, which reports success and contains the
incremental-refresh request. -/
theorem upload_refresh_incremental_witness :
    uploadFile ⟨[], "", false, [], ⟨false, 0⟩, 0, none, ""⟩ "n.txt"
        .ok .failed =
      uploadFile ⟨[], "", false, [], ⟨false, 0⟩, 0, none, ""⟩ "n.txt"
        .ok .ok ∧
    Request.postRefreshVectorstore ∈
      (uploadFile ⟨[], "", false, [], ⟨false, 0⟩, 0, none, ""⟩ "n.txt"
        .ok .failed).2 ∧
    (uploadFile ⟨[], "", false, [], ⟨false, 0⟩, 0, none, ""⟩ "n.txt"
        .ok .failed).1.notification = uploadSuccessNote "n.txt" := by
  obtain ⟨h1, h2, _, _, h5, _⟩ := upload_refresh_incremental_and_tolerant
    ⟨[], "", false, [], ⟨false, 0⟩, 0, none, ""⟩ "n.txt" 5 1
    (fun _ => none) ⟨[], []⟩
  exact ⟨h1 .failed, h2, h5⟩

/-- C5: the derived status reports availability exactly when the index is
non-empty and counts the indexed documents; on the client every outcome of
checkChatStatus is a well-formed status in which a missing field or a failed
request is coerced to false / 0 and a present field is passed through. -/
theorem status_derived_and_validated (b : Backend) (s : ClientState)
    (d : StatusData) :
    ((statusOf b).vectorstore_available = true ↔ b.index ≠ []) ∧
    (statusOf b).document_count =
      ((b.docs.filter fun x => x.status = DocStatus.indexed).length : Int) ∧
    (checkChatStatus s .httpError).chatStatus = ⟨false, 0⟩ ∧
    (checkChatStatus s .networkError).chatStatus = ⟨false, 0⟩ ∧
    (d.vectorstore_available = none →
      (checkChatStatus s (.ok d)).chatStatus.vectorstore_available = false) ∧
    (d.document_count = none →
      (checkChatStatus s (.ok d)).chatStatus.document_count = 0) ∧
    (∀ bv, d.vectorstore_available = some bv →
      (checkChatStatus s (.ok d)).chatStatus.vectorstore_available = bv) ∧
    (∀ n, d.document_count = some n →
      (checkChatStatus s (.ok d)).chatStatus.document_count = n) := by
  refine ⟨?_, rfl, rfl, rfl, ?_, ?_, ?_, ?_⟩
  · simp [statusOf]
  · intro h
    simp [checkChatStatus, h, jsOrBool]
  · intro h
    simp [checkChatStatus, h, jsOrInt]
  · intro bv h
    cases bv <;> simp [checkChatStatus, h, jsOrBool]
  · intro n h
    by_cases hn : n = 0 <;> simp [checkChatStatus, h, jsOrInt, hn]

/-- Concrete instantiation of the C5 theorem: a response missing both fields
is coerced to the default status, and an empty index is reported
unavailable. -/
theorem status_derived_and_validated_witness :
    (checkChatStatus ⟨[], "", false, [], ⟨true, 7⟩, 0, none, ""⟩
        (.ok ⟨none, none⟩)).chatStatus.vectorstore_available = false ∧
    (checkChatStatus ⟨[], "", false, [], ⟨true, 7⟩, 0, none, ""⟩
        (.ok ⟨none, none⟩)).chatStatus.document_count = 0 ∧
    (statusOf ⟨[], []⟩).document_count = 0 := by
  obtain ⟨_, hc, _, _, h5, h6, _⟩ := status_derived_and_validated
    ⟨[], []⟩ ⟨[], "", false, [], ⟨true, 7⟩, 0, none, ""⟩ ⟨none, none⟩
  exact ⟨h5 rfl, h6 rfl, by rw [hc]; rfl⟩

/-- The fold inside lru returns either its accumulator or a list element. -/
theorem lru_foldl_mem (l : List Session) (a : Session) :
    l.foldl (fun acc x =>
      if x.last_updated < acc.last_updated then x else acc) a = a ∨
    l.foldl (fun acc x =>
      if x.last_updated < acc.last_updated then x else acc) a ∈ l := by
  induction l generalizing a with
  | nil => exact Or.inl rfl
  | cons x xs ih =>
    simp only [List.foldl_cons]
    rcases ih (if x.last_updated < a.last_updated then x else a) with h | h
    · rw [h]
      split
      · exact Or.inr (List.mem_cons_self x xs)
      · exact Or.inl rfl
    · exact Or.inr (List.mem_cons_of_mem x h)

/-- The fold inside lru computes a minimum over the accumulator and the
list. -/
theorem lru_foldl_min (l : List Session) (a : Session) :
    (l.foldl (fun acc x =>
      if x.last_updated < acc.last_updated then x else acc) a).last_updated ≤
        a.last_updated ∧
    ∀ x ∈ l, (l.foldl (fun acc x =>
      if x.last_updated < acc.last_updated then x else acc) a).last_updated ≤
        x.last_updated := by
  induction l generalizing a with
  | nil => exact ⟨le_refl _, by simp⟩
  | cons y ys ih =>
    simp only [List.foldl_cons]
    obtain ⟨h1, h2⟩ := ih (if y.last_updated < a.last_updated then y else a)
    constructor
    · refine le_trans h1 ?_
      split <;> omega
    · intro x hx
      rcases List.mem_cons.mp hx with rfl | hx
      · refine le_trans h1 ?_
        split <;> omega
      · exact h2 x hx

/-- On a non-empty session list, lru returns a member of minimal
last_updated. -/
theorem lru_spec (l : List Session) (hl : l ≠ []) :
    ∃ v, lru l = some v ∧ v ∈ l ∧
      ∀ x ∈ l, v.last_updated ≤ x.last_updated := by
  cases l with
  | nil => exact absurd rfl hl
  | cons s rest =>
    refine ⟨_, rfl, ?_, ?_⟩
    · rcases lru_foldl_mem rest s with h | h
      · rw [h]
        exact List.mem_cons_self s rest
      · exact List.mem_cons_of_mem s h
    · intro x hx
      obtain ⟨h1, h2⟩ := lru_foldl_min rest s
      rcases List.mem_cons.mp hx with rfl | hx
      · exact h1
      · exact h2 x hx

/-- Every reachable session store holds at most sessionCap sessions. -/
theorem reachable_length_le (st : SessionStore) (h : ReachableStore st) :
    st.sessions.length ≤ sessionCap := by
  induction h with
  | init => simp [sessionCap]
  | create st title now _ ih =>
    unfold createSession
    dsimp only
    split
    · next hgt =>
      have hne : st.sessions ≠ [] := by
        intro hempty
        rw [hempty] at hgt
        simp [sessionCap] at hgt
      obtain ⟨v, hv, hvm, _⟩ := lru_spec st.sessions hne
      rw [hv]
      rw [List.length_append, List.length_erase_of_mem hvm]
      simp only [List.length_cons, List.length_nil, sessionCap] at ih hgt ⊢
      omega
    · next hle =>
      rw [List.length_append]
      simp only [List.length_cons, List.length_nil, sessionCap] at ih hle ⊢
      omega
  | append st st' id m now _ heq ih =>
    unfold appendMessage at heq
    split at heq
    · cases heq
      simpa using ih
    · cases heq
  | delete st id _ ih =>
    exact le_trans (List.length_filter_le _ _) ih

/-- C6: in every reachable state the session store retains at most 50
sessions, and a create issued when it holds exactly 50 evicts exactly the
least-recently-updated session before appending the new one, leaving the
count at 50. -/
theorem session_cap_eviction (st : SessionStore) (h : ReachableStore st) :
    st.sessions.length ≤ sessionCap ∧
    (st.sessions.length = sessionCap → ∀ title now, ∃ v,
      lru st.sessions = some v ∧ v ∈ st.sessions ∧
      (∀ x ∈ st.sessions, v.last_updated ≤ x.last_updated) ∧
      (createSession st title now).1.sessions =
        st.sessions.erase v ++ [⟨st.nextId, title, now, now, []⟩] ∧
      (createSession st title now).1.sessions.length = sessionCap) := by
  refine ⟨reachable_length_le st h, fun hfull title now => ?_⟩
  have hne : st.sessions ≠ [] := by
    intro he
    rw [he] at hfull
    simp [sessionCap] at hfull
  obtain ⟨v, hv, hvm, hvmin⟩ := lru_spec st.sessions hne
  have hcond : sessionCap < st.sessions.length + 1 := by omega
  refine ⟨v, hv, hvm, hvmin, ?_, ?_⟩
  · unfold createSession
    dsimp only
    rw [if_pos hcond, hv]
  · unfold createSession
    dsimp only
    rw [if_pos hcond, hv]
    rw [List.length_append, List.length_erase_of_mem hvm]
    simp only [List.length_cons, List.length_nil, sessionCap] at hfull ⊢
    omega

/-- Concrete instantiation of the C6 theorem: the empty store is reachable
and within the cap. -/
theorem session_cap_eviction_witness :
    (⟨[], 0⟩ : SessionStore).sessions.length ≤ sessionCap :=
  (session_cap_eviction ⟨[], 0⟩ ReachableStore.init).1

end SmartDocQuery
